import Mathlib

/-!
Shallow embedding of the hybrid music-recommendation core of
`hybrid-music-recommender-agentic-ai`, covering:

* `ml/reinforcement_learning.py` — `ReinforcementLearningEngine`
  (`extract_track_features`, `train_user_model`, `predict_user_rating`,
  `get_prediction_confidence`);
* `core/hybrid_system.py` — `HybridMusicSystem`
  (`_calculate_hybrid_confidence`, `_calculate_diversity_penalty`,
  `_apply_rl_enhancement`, `_get_enhanced_user_context`, `process_feedback`).

Python floats are modelled as `ℚ`; Python dict keys that are read with
`dict.get(key, default)` are modelled as `Option` fields with `Option.getD`
at the use site.  Calls into external collaborators (the database manager,
the scikit-learn fit/predict machinery, the wall clock) are modelled as
explicit parameters; a collaborator call that may raise is modelled as an
`Except String` value.  `datetime.now().hour` is passed as an explicit
`current_hour : ℕ` parameter wherever the source reads the clock.
-/

namespace HybridMusic

/-- Python `str.lower()` modelled character-wise (the source only ever
lowercases ASCII artist/tag/genre strings). -/
def pyLower (s : String) : String := ⟨s.data.map Char.toLower⟩

/-- Python truthiness of an optional string (`if track.get('preview_url')`):
missing and empty strings are falsy. -/
def pyTruthyStr (s : Option String) : Bool :=
  match s with
  | none => false
  | some v => decide (v ≠ "")

/-- The `estimated_features` sub-dict of a track
(`reinforcement_learning.py` lines 65–74). -/
structure EstimatedFeatures where
  energy : Option ℚ
  valence : Option ℚ
  danceability : Option ℚ
  acousticness : Option ℚ
  instrumentalness : Option ℚ
  tempo : Option ℚ
  loudness : Option ℚ
deriving DecidableEq

/-- The all-missing `estimated_features` dict (`track.get` with a dict default). -/
def EstimatedFeatures.empty : EstimatedFeatures := ⟨none, none, none, none, none, none, none⟩

/-- A candidate track dict, restricted to the keys the core reads.  Every
field the source accesses through `dict.get` with a default is an `Option`. -/
structure Track where
  name : Option String
  artist : Option String
  estimated_features : Option EstimatedFeatures
  popularity : Option ℚ
  relevance_score : Option ℚ
  preview_url : Option String
  explicit : Option Bool
  source : Option String
  lastfm_tags : Option (List String)
  ranking_score : Option ℚ
deriving DecidableEq

/-- The `mood_analysis` sub-dict of a request context. -/
structure MoodAnalysis where
  intensity : Option ℚ
  valence : Option ℚ
  arousal : Option ℚ
deriving DecidableEq

/-- The all-missing mood dict. -/
def MoodAnalysis.empty : MoodAnalysis := ⟨none, none, none⟩

/-- The `musical_context` sub-dict of a request context. -/
structure MusicalContext where
  energy_preference : Option ℚ
  familiarity_preference : Option ℚ
deriving DecidableEq

/-- The all-missing musical-context dict. -/
def MusicalContext.empty : MusicalContext := ⟨none, none⟩

/-- A situational context dict as consumed by `extract_track_features`
(lines 96–121).  A Python `None` or empty (falsy) context is modelled as
`Option.none` at the call site. -/
structure Context where
  mood_analysis : Option MoodAnalysis
  musical_context : Option MusicalContext
deriving DecidableEq

/-- The fixed source vocabulary (line 86). -/
def sourceVocab : List String := ["deezer", "itunes", "lastfm", "musicbrainz", "audiodb"]

/-- The fixed genre vocabulary (line 92). -/
def commonGenres : List String := ["rock", "pop", "electronic", "jazz", "classical", "hip-hop", "country", "folk"]

/-- Python `any(genre.lower() in tag.lower() for tag in tags)` (line 94);
`in` on strings is substring containment. -/
def genrePresent (genre : String) (tags : List String) : Bool :=
  tags.any (fun tag => decide ((pyLower genre).data <:+: (pyLower tag).data))

/-- The 7 audio-feature dimensions (lines 66–74). -/
def audioFeatures (track : Track) : List ℚ :=
  let ef := track.estimated_features.getD EstimatedFeatures.empty
  [ef.energy.getD (1/2),
   ef.valence.getD (1/2),
   ef.danceability.getD (1/2),
   ef.acousticness.getD (3/10),
   ef.instrumentalness.getD (1/10),
   (ef.tempo.getD 120) / 200,
   ((ef.loudness.getD (-8)) + 60) / 60]

/-- The 5 metadata dimensions (lines 77–83). -/
def metadataFeatures (track : Track) : List ℚ :=
  [(track.popularity.getD 0) / 100,
   (track.relevance_score.getD 0) / 100,
   ((track.name.getD "").length : ℚ) / 50,
   if pyTruthyStr track.preview_url then 1 else 0,
   if track.explicit.getD false then 1 else 0]

/-- The 5 one-hot source dimensions (lines 86–88). -/
def sourceFeatures (track : Track) : List ℚ :=
  sourceVocab.map (fun s => if track.source.getD "unknown" = s then 1 else 0)

/-- The 8 genre-presence dimensions (lines 91–94). -/
def genreFeatures (track : Track) : List ℚ :=
  commonGenres.map (fun g => if genrePresent g (track.lastfm_tags.getD []) then 1 else 0)

/-- The 25 context-independent dimensions, in source order. -/
def base25 (track : Track) : List ℚ :=
  audioFeatures track ++ metadataFeatures track ++ sourceFeatures track ++ genreFeatures track

/-- The 10 context dimensions appended when a truthy context is supplied
(lines 97–121): 5 time-of-day dims from `datetime.now().hour`, 3 mood dims,
2 musical-context dims. -/
def contextFeatures (ctx : Context) (current_hour : ℕ) : List ℚ :=
  let md := ctx.mood_analysis.getD MoodAnalysis.empty
  let mc := ctx.musical_context.getD MusicalContext.empty
  [(current_hour : ℚ) / 24,
   if 6 ≤ current_hour ∧ current_hour ≤ 12 then 1 else 0,
   if 12 ≤ current_hour ∧ current_hour ≤ 18 then 1 else 0,
   if 18 ≤ current_hour ∧ current_hour ≤ 24 then 1 else 0,
   if 0 ≤ current_hour ∧ current_hour ≤ 6 then 1 else 0,
   md.intensity.getD (1/2),
   md.valence.getD 0,
   md.arousal.getD (1/2),
   mc.energy_preference.getD (1/2),
   mc.familiarity_preference.getD (1/2)]

/-- `ReinforcementLearningEngine.extract_track_features` (lines 60–126).
`current_hour` models the `datetime.now().hour` read on line 99. -/
def extract_track_features (track : Track) (context : Option Context) (current_hour : ℕ) : List ℚ :=
  base25 track ++
    (match context with
     | some ctx => contextFeatures ctx current_hour
     | none => List.replicate 10 0)

/-- Zeroes the last 10 dimensions of a feature vector (used to state the
spec's context/no-context relation). -/
def zeroLastTen (v : List ℚ) : List ℚ :=
  v.take (v.length - 10) ++ List.replicate 10 0

/-- The `performance` record stored with a trained user model
(lines 220–227). -/
structure Performance where
  mae : ℚ
  rmse : ℚ
  accuracy : ℚ
  cv_score : ℚ
  training_samples : ℕ
  test_samples : ℕ

/-- A per-user trained model entry in `self.user_models` (lines 216–230).
`rawPredict` models `model.predict(scaler.transform(features.reshape(1,-1)))[0]`
— the composed scikit-learn scaler + regressor on one feature vector; an
`Except.error` models a raised exception during transform/inference. -/
structure UserModel where
  rawPredict : List ℚ → Except String ℚ
  performance : Performance

/-- The engine's in-memory model mapping `self.user_models`. -/
structure EngineState where
  user_models : ℕ → Option UserModel

/-- The `config.rl` fields the embedded methods read. -/
structure RLConfig where
  min_training_samples : ℕ

/-- One row returned by `db_manager.get_user_feedback_with_context`.
`valid` is the outcome of the per-record reconstruction in the inner `try`
(lines 147–169: building `track_data`, `json.loads` of the feature/tag/context
snapshots): `none` models a record whose processing raises and is skipped. -/
structure FeedbackRecord where
  valid : Option (Track × Option Context)
  rating : ℚ

/-- The outcome of the scikit-learn fitting region (lines 177–210:
`train_test_split`, scaler fit/transform, `RandomForestRegressor.fit`,
held-out metrics, cross-validation).  `n_train`/`n_test` are
`len(X_train)`/`len(X_test)` after the >10-sample 80/20 split. -/
structure FitOutcome where
  rawPredict : List ℚ → Except String ℚ
  mae : ℚ
  rmse : ℚ
  cv_score : ℚ
  n_train : ℕ
  n_test : ℕ

/-- The external world consumed by one `train_user_model` run: the database
fetch (line 133, may raise), the fitting region (may raise), the post-commit
`db_manager.update_user_model_stats` call (line 238, may raise), and the
clock hour read by feature extraction.  `_save_models` (line 235) catches
its own exceptions and touches only the disk, so it has no effect here. -/
structure TrainEnv where
  fetch : Except String (List FeedbackRecord)
  fit : List (List ℚ × ℚ) → Except String FitOutcome
  dbUpdate : Except String Unit
  hour : ℕ

/-- The result dict returned by `train_user_model`; a key absent from the
returned Python dict is `none`. -/
structure TrainResult where
  success : Bool
  message : String
  accuracy : Option ℚ := none
  mae : Option ℚ := none
  rmse : Option ℚ := none
  cv_score : Option ℚ := none
  training_samples : Option ℕ := none
  current_samples : Option ℕ := none

/-- The valid `(feature-vector, rating)` pairs surviving the per-record
filter (lines 146–169). -/
def trainingPairs (env : TrainEnv) (feedback_data : List FeedbackRecord) : List (List ℚ × ℚ) :=
  feedback_data.filterMap
    (fun f => f.valid.map (fun tc => (extract_track_features tc.1 tc.2 env.hour, f.rating)))

/-- The user-model entry committed to `self.user_models` on a successful fit
(lines 212–232): derived accuracy is `max(0, 1 - MAE/4)`. -/
def fittedUserModel (fo : FitOutcome) : UserModel :=
  { rawPredict := fo.rawPredict,
    performance :=
      { mae := fo.mae, rmse := fo.rmse, accuracy := max 0 (1 - fo.mae / 4),
        cv_score := fo.cv_score, training_samples := fo.n_train,
        test_samples := fo.n_test } }

/-- `ReinforcementLearningEngine.train_user_model` (lines 128–261) as a state
transition on the model mapping.  The blanket `except` (line 256) catches
any raise from the fetch, the fitting region, or the post-commit db-stats
update and returns a structured failure; note that in the last case the
model commit (line 232) has already happened. -/
def train_user_model (cfg : RLConfig) (env : TrainEnv) (st : EngineState) (user : ℕ) :
    TrainResult × EngineState :=
  match env.fetch with
  | .error e => ({ success := false, message := "Training failed: " ++ e }, st)
  | .ok feedback_data =>
    if feedback_data.length < cfg.min_training_samples then
      ({ success := false,
         message := "Need at least the configured minimum of ratings",
         current_samples := some feedback_data.length }, st)
    else
      if (trainingPairs env feedback_data).length < cfg.min_training_samples then
        ({ success := false, message := "Insufficient valid training samples" }, st)
      else
        match env.fit (trainingPairs env feedback_data) with
        | .error e => ({ success := false, message := "Training failed: " ++ e }, st)
        | .ok fo =>
          match env.dbUpdate with
          | .error e =>
            ({ success := false, message := "Training failed: " ++ e },
             ⟨Function.update st.user_models user (some (fittedUserModel fo))⟩)
          | .ok _ =>
            ({ success := true,
               accuracy := some (fittedUserModel fo).performance.accuracy,
               mae := some fo.mae, rmse := some fo.rmse, cv_score := some fo.cv_score,
               training_samples := some fo.n_train,
               message := "Model trained successfully" },
             ⟨Function.update st.user_models user (some (fittedUserModel fo))⟩)

/-- The `try` block of `predict_user_rating` (lines 272–291): look the model
up, extract features, scale + infer, clamp to [1, 5]; any raise (including a
`KeyError` on the model lookup) degrades to the neutral 3.0. -/
def runInference (env : TrainEnv) (st : EngineState) (user : ℕ)
    (track : Track) (context : Option Context) : ℚ × EngineState :=
  match st.user_models user with
  | none => (3, st)
  | some um =>
    match um.rawPredict (extract_track_features track context env.hour) with
    | .error _ => (3, st)
    | .ok r => (max 1 (min 5 r), st)

/-- `ReinforcementLearningEngine.predict_user_rating` (lines 263–291):
lazily train when the user has no model; if training fails return 3.0;
otherwise run clamped inference with every exception degrading to 3.0. -/
def predict_user_rating (cfg : RLConfig) (env : TrainEnv) (st : EngineState) (user : ℕ)
    (track : Track) (context : Option Context) : ℚ × EngineState :=
  match st.user_models user with
  | none =>
    if (train_user_model cfg env st user).1.success then
      runInference env (train_user_model cfg env st user).2 user track context
    else (3, (train_user_model cfg env st user).2)
  | some _ => runInference env st user track context

/-- `ReinforcementLearningEngine.get_prediction_confidence` (lines 293–317).
The `track` argument is accepted and ignored, exactly as in the source. -/
def get_prediction_confidence (st : EngineState) (user : ℕ) (track : Track) : ℚ :=
  match st.user_models user with
  | none => 0
  | some um =>
    let base_confidence := um.performance.accuracy
    let sample_confidence : ℚ := min 1 ((um.performance.training_samples : ℚ) / 50)
    let confidence := base_confidence * (7/10) + sample_confidence * (3/10)
    max 0 (min 1 confidence)

/-- The `rl_insights` sub-dict of a user context as read by
`_calculate_hybrid_confidence` (`hybrid_system.py` lines 206–208). -/
structure RLInsights where
  training_samples : Option ℕ
  model_accuracy : Option ℚ
deriving DecidableEq

/-- The all-missing insights dict. -/
def RLInsights.empty : RLInsights := ⟨none, none⟩

/-- `HybridMusicSystem._calculate_hybrid_confidence` (lines 204–222).  Only
`context['rl_insights']` is read; the `llm_response`/`rl_tracks` arguments
are unused in the source body and therefore elided. -/
def calculate_hybrid_confidence (rl_insights : Option RLInsights) : ℚ :=
  let llm_confidence : ℚ := 8/10
  let ins := rl_insights.getD RLInsights.empty
  let training_samples := ins.training_samples.getD 0
  let model_accuracy := ins.model_accuracy.getD (1/2)
  let rl_confidence : ℚ :=
    if 20 ≤ training_samples then model_accuracy
    else if 5 ≤ training_samples then model_accuracy * (7/10)
    else 3/10
  let hybrid_confidence : ℚ :=
    if 5 ≤ training_samples then llm_confidence * (6/10) + rl_confidence * (4/10)
    else llm_confidence * (9/10)
  min (max hybrid_confidence 0) 1

/-- Modelled from the spec (§4.4, hybrid confidence): LLM confidence fixed
at 0.8; RL confidence gated by sample count (≥20: accuracy; ≥5: accuracy×0.7;
<5: 0.3); blend 0.6×LLM + 0.4×RL at ≥5 samples, else 0.9×LLM; clamp to [0,1].
Used as the refinement target compared against `calculate_hybrid_confidence`. -/
def hybridConfidenceSpec (training_samples : ℕ) (model_accuracy : ℚ) : ℚ :=
  let llm : ℚ := 8/10
  let rl : ℚ :=
    if 20 ≤ training_samples then model_accuracy
    else if 5 ≤ training_samples then model_accuracy * (7/10)
    else 3/10
  let blended : ℚ :=
    if 5 ≤ training_samples then (6/10) * llm + (4/10) * rl
    else (9/10) * llm
  min 1 (max 0 blended)

/-- One recommended-track record inside a logged interaction's
`recommendations` JSON, restricted to the keys the diversity penalty reads. -/
structure RecTrack where
  artist : Option String
  lastfm_tags : Option (List String)
deriving DecidableEq

/-- One recent-interaction row; `recommendations` models the already-parsed
`json.loads(interaction.get('recommendations', '[]'))`. -/
structure Interaction where
  recommendations : List RecTrack
deriving DecidableEq

/-- The number of occurrences of the candidate's (lowercased) artist among
all tracks recommended in the recent-interaction window (lines 156–163). -/
def artistRepeatCount (track : Track) (recent_interactions : List Interaction) : ℕ :=
  let track_artist := pyLower (track.artist.getD "")
  let recent_artists := recent_interactions.flatMap
    (fun i => i.recommendations.map (fun r => pyLower (r.artist.getD "")))
  recent_artists.count track_artist

/-- The number of distinct candidate tags that also occur among the last 10
tags seen in the recent window (lines 167–173: `recent_genres[-10:]` then a
set intersection). -/
def tagOverlapCount (track : Track) (recent_interactions : List Interaction) : ℕ :=
  let track_genres := (track.lastfm_tags.getD []).map pyLower
  let recent_genres := recent_interactions.flatMap
    (fun i => i.recommendations.flatMap (fun r => (r.lastfm_tags.getD []).map pyLower))
  let lastTen := recent_genres.drop (recent_genres.length - 10)
  (track_genres.toFinset ∩ lastTen.toFinset).card

/-- The penalty value as a function of the two counts: +2.0 per same-artist
occurrence (guarded by `artist_count > 0` as in line 164), +0.5 per tag
overlap, capped at 10.0. -/
def penaltyFormula (artist_count tag_overlap : ℕ) : ℚ :=
  min ((if 0 < artist_count then (artist_count : ℚ) * 2 else 0) + (tag_overlap : ℚ) * (1/2)) 10

/-- `HybridMusicSystem._calculate_diversity_penalty` (lines 153–176). -/
def calculate_diversity_penalty (track : Track) (recent_interactions : List Interaction) : ℚ :=
  let artist_count := artistRepeatCount track recent_interactions
  let penalty : ℚ := if 0 < artist_count then (artist_count : ℚ) * 2 else 0
  let genre_overlap := tagOverlapCount track recent_interactions
  min (penalty + (genre_overlap : ℚ) * (1/2)) 10

/-- An enhanced track as produced by `_apply_rl_enhancement` (lines 139–146):
the copied original track plus the five attached derived fields. -/
structure EnhancedTrack where
  base : Track
  rl_predicted_rating : ℚ
  rl_bonus : ℚ
  diversity_penalty : ℚ
  enhanced_score : ℚ
  rl_confidence : ℚ
deriving DecidableEq

/-- The per-track body of the enhancement loop (lines 131–148), threading the
engine state because `predict_user_rating` may lazily train. -/
def enhanceOne (cfg : RLConfig) (env : TrainEnv) (st : EngineState) (user : ℕ)
    (context : Option Context) (recent : List Interaction) (track : Track) :
    EnhancedTrack × EngineState :=
  let pr := predict_user_rating cfg env st user track context
  let rl_prediction := pr.1
  let st2 := pr.2
  let base_score := track.ranking_score.getD 0
  let rl_bonus := (rl_prediction - 3) * 5
  let dp := calculate_diversity_penalty track recent
  ({ base := track,
     rl_predicted_rating := rl_prediction,
     rl_bonus := rl_bonus,
     diversity_penalty := dp,
     enhanced_score := base_score + rl_bonus - dp,
     rl_confidence := get_prediction_confidence st2 user track }, st2)

/-- The enhancement loop over the candidate list, in order, threading the
engine state. -/
def enhanceList (cfg : RLConfig) (env : TrainEnv) (user : ℕ) (context : Option Context)
    (recent : List Interaction) : EngineState → List Track → List EnhancedTrack × EngineState
  | st, [] => ([], st)
  | st, t :: ts =>
    let r := enhanceOne cfg env st user context recent t
    let rest := enhanceList cfg env user context recent r.2 ts
    (r.1 :: rest.1, rest.2)

/-- The comparison used by the final
`enhanced_tracks.sort(key=..., reverse=True)` (line 149): Python's sort is a
stable merge sort, and `reverse=True` reverses the comparison, not the list,
so ties keep their original relative order. -/
def scoreDescLE (a b : EnhancedTrack) : Bool := decide (b.enhanced_score ≤ a.enhanced_score)

/-- `HybridMusicSystem._apply_rl_enhancement` (lines 128–151).  `recent` is
`context['recent_interactions']`, passed separately because the embedded
`Context` only keeps the keys feature extraction reads. -/
def apply_rl_enhancement (cfg : RLConfig) (env : TrainEnv) (st : EngineState) (user : ℕ)
    (tracks : List Track) (context : Option Context) (recent : List Interaction) :
    List EnhancedTrack × EngineState :=
  let r := enhanceList cfg env user context recent st tracks
  (r.1.mergeSort scoreDescLE, r.2)

/-- The aggregated per-user context snapshot built by
`_get_enhanced_user_context` (lines 86–93), restricted to the fields the
embedded claims inspect; the remaining collaborator-supplied payloads
(user data, feedback patterns, temporal patterns) carry no structure the
claims depend on. -/
structure UserContext where
  recent_interactions : List Interaction
  rl_insights : RLInsights
  built_at : ℕ
deriving DecidableEq

/-- One `self.user_contexts[user_id]` cache entry (line 95). -/
structure CacheEntry where
  context : UserContext
  timestamp : ℕ
deriving DecidableEq

/-- The `HybridMusicSystem` state shared across requests: the context cache
and the RL engine's model mapping. -/
structure HybridState where
  user_contexts : ℕ → Option CacheEntry
  engine : EngineState

/-- `HybridMusicSystem._get_enhanced_user_context` (lines 75–96).  `now` is
the `datetime.now()` instant in whole seconds; the staleness test models
Python's `timedelta.seconds` (the within-day seconds component, i.e. the
elapsed seconds modulo 86400) being `< 300`.  `build` stands for the fresh
aggregation of the five database/engine reads on a cache miss. -/
def get_enhanced_user_context (st : HybridState) (user : ℕ) (now : ℕ)
    (build : UserContext) : UserContext × HybridState :=
  match st.user_contexts user with
  | some entry =>
    if (now - entry.timestamp) % 86400 < 300 then (entry.context, st)
    else (build, { st with user_contexts := Function.update st.user_contexts user (some ⟨build, now⟩) })
  | none =>
    (build, { st with user_contexts := Function.update st.user_contexts user (some ⟨build, now⟩) })

/-- The dict returned by `process_feedback` (lines 292–304); `new_accuracy`
is `none` on the branch whose dict omits the key. -/
structure FeedbackResult where
  success : Bool
  model_updated : Bool
  new_accuracy : Option ℚ
  message : String

/-- `HybridMusicSystem.process_feedback` (lines 277–304).  `feedback_count`
is the `db_manager.get_user_feedback_count` read inside
`_has_sufficient_training_data` (line 225), taken after the new feedback row
is logged; `db_manager.log_feedback` itself only appends to external
storage and is not part of this state. -/
def process_feedback (cfg : RLConfig) (env : TrainEnv) (st : HybridState)
    (user : ℕ) (feedback_count : ℕ) : FeedbackResult × HybridState :=
  if cfg.min_training_samples ≤ feedback_count then
    let tr := train_user_model cfg env st.engine user
    let st2 : HybridState :=
      { engine := tr.2, user_contexts := Function.update st.user_contexts user none }
    ({ success := true,
       model_updated := tr.1.success,
       new_accuracy := some (tr.1.accuracy.getD 0),
       message := "Thank you! Your feedback helps improve recommendations." }, st2)
  else
    ({ success := true,
       model_updated := false,
       new_accuracy := none,
       message := "Thank you! Rate more tracks to unlock AI personalization." }, st)

/-! Concrete fixtures used by witnesses and counterexamples. -/

/-- A track dict with every optional key absent. -/
def trackEmpty : Track := ⟨none, none, none, none, none, none, none, none, none, none⟩

/-- A truthy but otherwise empty context dict. -/
def ctxEmpty : Context := ⟨none, none⟩

/-- The default configuration (`min_training_samples = 5`). -/
def cfgFive : RLConfig := ⟨5⟩

/-- A configuration with the minimum set to 1, to keep fixture runs small. -/
def cfgOne : RLConfig := ⟨1⟩

/-- A training environment whose database fetch returns no feedback rows:
every training attempt fails with insufficient samples before fitting. -/
def envNoData : TrainEnv :=
  { fetch := Except.ok [],
    fit := fun _ => Except.error "unreached",
    dbUpdate := Except.ok (),
    hour := 0 }

/-- The engine state with no trained models. -/
def stEmpty : EngineState := ⟨fun _ => none⟩

/-- A user model whose inference always raises. -/
def umRaises : UserModel :=
  { rawPredict := fun _ => Except.error "inference raised",
    performance := ⟨1, 1, 0, 0, 1, 1⟩ }

/-- An engine state in which every user has the raising model. -/
def stRaises : EngineState := ⟨fun _ => some umRaises⟩

/-- A user model with accuracy 1/2 trained on 25 samples. -/
def umHalf : UserModel :=
  { rawPredict := fun _ => Except.ok 4,
    performance := ⟨2, 2, 1/2, 0, 25, 7⟩ }

/-- An engine state in which every user has the accuracy-1/2 model. -/
def stHalf : EngineState := ⟨fun _ => some umHalf⟩

/-- A single well-formed feedback row. -/
def fbOne : FeedbackRecord := ⟨some (trackEmpty, none), 5⟩

/-- A fit outcome with plain metrics and a constant predictor. -/
def foPlain : FitOutcome :=
  { rawPredict := fun _ => Except.ok 3, mae := 1, rmse := 1, cv_score := 1,
    n_train := 1, n_test := 1 }

/-- A training environment in which fetching and fitting succeed but the
post-commit `update_user_model_stats` database call raises. -/
def envDbRaises : TrainEnv :=
  { fetch := Except.ok [fbOne],
    fit := fun _ => Except.ok foPlain,
    dbUpdate := Except.error "db write failed",
    hour := 0 }

/-- A candidate track named "a". -/
def trackA : Track := { trackEmpty with name := some "a" }

/-- A candidate track named "b". -/
def trackB : Track := { trackEmpty with name := some "b" }

/-- The enhanced form of `trackA` under `envNoData` (prediction degrades to
the neutral 3.0 because training fails). -/
def enhA : EnhancedTrack := (enhanceOne cfgFive envNoData stEmpty 1 none [] trackA).1

/-- The enhanced form of `trackB` under `envNoData`. -/
def enhB : EnhancedTrack := (enhanceOne cfgFive envNoData stEmpty 1 none [] trackB).1

/-- A candidate by artist "radiohead" for the diversity-penalty scenario. -/
def trackRepeat : Track := { trackEmpty with artist := some "Radiohead" }

/-- One logged interaction recommending a single "radiohead" track. -/
def interactionRepeat : Interaction := ⟨[⟨some "radiohead", none⟩]⟩

/-- A recent window holding the same artist five times. -/
def windowFive : List Interaction := List.replicate 5 interactionRepeat

/-- A cached pre-feedback context snapshot. -/
def ctxCached : UserContext := ⟨[], RLInsights.empty, 0⟩

/-- The snapshot a fresh aggregation would build after the feedback. -/
def ctxFresh : UserContext := ⟨[], RLInsights.empty, 1⟩

/-- A hybrid-system state caching `ctxCached` for user 1 at time 0, with no
trained models. -/
def stCachedOne : HybridState :=
  ⟨fun u => if u = 1 then some ⟨ctxCached, 0⟩ else none, stEmpty⟩

/-! Helper lemmas (shared; not themselves claim theorems). -/

/-- The context-independent prefix always has 25 dimensions. -/
theorem base25_length (track : Track) : (base25 track).length = 25 := by
  simp [base25, audioFeatures, metadataFeatures, sourceFeatures, genreFeatures,
    sourceVocab, commonGenres]

/-- The context block always has 10 dimensions. -/
theorem contextFeatures_length (ctx : Context) (hour : ℕ) :
    (contextFeatures ctx hour).length = 10 := by
  simp [contextFeatures]

/-- The extracted vector always has 35 dimensions. -/
theorem extract_track_features_length (track : Track) (context : Option Context) (hour : ℕ) :
    (extract_track_features track context hour).length = 35 := by
  cases context <;>
    simp [extract_track_features, base25_length, contextFeatures_length]

/-- C1: for every track, every context (including the absent one) and every
clock hour, `extract_track_features` returns a vector of exactly 35
dimensions, and the no-context vector equals the with-context vector with
its last 10 dimensions zeroed (the first 25 dimensions matching); finiteness
of every dimension is inherent to the `ℚ` embedding. -/
theorem c1_extract_length_and_context_zeroing (track : Track) (context : Option Context)
    (hour hourNC : ℕ) :
    (extract_track_features track context hour).length = 35 ∧
    extract_track_features track none hourNC = zeroLastTen (extract_track_features track context hour) := by
  refine ⟨extract_track_features_length track context hour, ?_⟩
  have hlen : (extract_track_features track context hour).length = 35 :=
    extract_track_features_length track context hour
  unfold zeroLastTen
  rw [hlen]
  have h25 : (base25 track).length = 35 - 10 := by rw [base25_length]
  cases context <;> simp only [extract_track_features] <;> rw [List.take_left' h25]

/-- C4 counterexample: the same empty track and the same truthy context,
extracted at clock hours 3 and 15, give different vectors (the normalized
hour and time-window dimensions differ), so `extract_track_features` is not
a pure function of track and context alone. -/
theorem c4_counterexample_extract_depends_on_clock :
    extract_track_features trackEmpty (some ctxEmpty) 3 ≠
      extract_track_features trackEmpty (some ctxEmpty) 15 := by
  simp only [extract_track_features, base25, audioFeatures, metadataFeatures, sourceFeatures,
    genreFeatures, contextFeatures, trackEmpty, ctxEmpty, sourceVocab, commonGenres,
    EstimatedFeatures.empty, MoodAnalysis.empty, MusicalContext.empty, Option.getD, pyTruthyStr,
    genrePresent]
  intro h
  simp only [List.append_assoc, List.cons_append, List.nil_append, List.cons.injEq] at h
  norm_num at h

/-- C4 (amended): `extract_track_features` is a deterministic function of
the track, the context, and the clock hour read at call time — calls at the
same hour agree, and with an absent context the result is independent of the
clock entirely. -/
theorem c4_extract_deterministic_given_hour :
    (∀ (track : Track) (hour1 hour2 : ℕ),
      extract_track_features track none hour1 = extract_track_features track none hour2) ∧
    (∀ (track : Track) (context : Option Context) (hour1 hour2 : ℕ), hour1 = hour2 →
      extract_track_features track context hour1 = extract_track_features track context hour2) := by
  constructor
  · intro track hour1 hour2
    rfl
  · intro track context hour1 hour2 h
    rw [h]

/-- C4 witness: the amended determinism instantiated at the empty track, the
truthy empty context, and hour 3 on both sides. -/
theorem c4_witness_extract_deterministic :
    extract_track_features trackEmpty (some ctxEmpty) 3 =
      extract_track_features trackEmpty (some ctxEmpty) 3 :=
  c4_extract_deterministic_given_hour.2 trackEmpty (some ctxEmpty) 3 3 rfl

/-- Clamped inference stays in [1, 5]. -/
theorem runInference_bounds (env : TrainEnv) (st : EngineState) (user : ℕ)
    (track : Track) (context : Option Context) :
    1 ≤ (runInference env st user track context).1 ∧
      (runInference env st user track context).1 ≤ 5 := by
  unfold runInference
  rcases hm : st.user_models user with _ | um <;> simp only [hm]
  · norm_num
  · rcases hr : um.rawPredict (extract_track_features track context env.hour) with e | r <;>
      simp only [hr]
    · norm_num
    · exact ⟨le_max_left _ _, max_le (by norm_num) (min_le_left _ _)⟩

/-- C2: `predict_user_rating` always returns a value in [1.0, 5.0]; when the
user has no model and lazy training fails it returns exactly 3.0, and an
exception raised by the stored scaler/model during inference also degrades
to 3.0. -/
theorem c2_predict_range_and_neutral_fallback (cfg : RLConfig) (env : TrainEnv)
    (st : EngineState) (user : ℕ) (track : Track) (context : Option Context) :
    (1 ≤ (predict_user_rating cfg env st user track context).1 ∧
      (predict_user_rating cfg env st user track context).1 ≤ 5) ∧
    (st.user_models user = none →
      (train_user_model cfg env st user).1.success = false →
      (predict_user_rating cfg env st user track context).1 = 3) ∧
    (∀ (um : UserModel) (e : String), st.user_models user = some um →
      um.rawPredict (extract_track_features track context env.hour) = Except.error e →
      (predict_user_rating cfg env st user track context).1 = 3) := by
  refine ⟨?_, ?_, ?_⟩
  · unfold predict_user_rating
    rcases hm : st.user_models user with _ | um <;> simp only [hm]
    · by_cases hs : (train_user_model cfg env st user).1.success = true
      · rw [if_pos hs]
        exact runInference_bounds env (train_user_model cfg env st user).2 user track context
      · rw [if_neg hs]
        norm_num
    · exact runInference_bounds env st user track context
  · intro hm hs
    unfold predict_user_rating
    simp only [hm]
    rw [if_neg (by rw [hs]; exact Bool.false_ne_true)]
  · intro um e hm hraw
    unfold predict_user_rating
    simp only [hm]
    unfold runInference
    simp only [hm, hraw]

/-- C2 witness: with no stored model and an empty feedback history, lazy
training fails and prediction returns exactly 3.0 (which is within [1, 5]);
with a stored model whose inference raises, prediction also returns 3.0. -/
theorem c2_witness_predict_neutral :
    (1 ≤ (predict_user_rating cfgFive envNoData stEmpty 1 trackEmpty none).1 ∧
      (predict_user_rating cfgFive envNoData stEmpty 1 trackEmpty none).1 = 3) ∧
    (predict_user_rating cfgFive envNoData stRaises 1 trackEmpty none).1 = 3 :=
  ⟨⟨(c2_predict_range_and_neutral_fallback cfgFive envNoData stEmpty 1 trackEmpty none).1.1,
    (c2_predict_range_and_neutral_fallback cfgFive envNoData stEmpty 1 trackEmpty none).2.1 rfl rfl⟩,
   (c2_predict_range_and_neutral_fallback cfgFive envNoData stRaises 1 trackEmpty none).2.2
     umRaises "inference raised" rfl rfl⟩

/-- C3 counterexample: with `min_training_samples = 1`, one valid feedback
row, a successful fit, and a post-commit `update_user_model_stats` call that
raises, `train_user_model` returns a structured failure — yet the user, who
previously had no model, now has one: the model mapping was modified on a
failure path, refuting "the model mapping is modified only on success". -/
theorem c3_counterexample_failure_after_commit :
    (train_user_model cfgOne envDbRaises stEmpty 1).1.success = false ∧
    stEmpty.user_models 1 = none ∧
    ((train_user_model cfgOne envDbRaises stEmpty 1).2.user_models 1).isSome = true :=
  ⟨rfl, rfl, rfl⟩

/-- C3 (amended): training with fewer than the configured minimum of valid
samples returns a structured failure, and on any failure path the model
mapping is unmodified — except when the exception is raised after the model
was committed (the post-training database stats update), in which case a
failure result is returned with the new model already in place.  The second
conjunct states the preservation under the assumption that the post-commit
database update does not raise. -/
theorem c3_amended_train_failure_semantics (cfg : RLConfig) (env : TrainEnv)
    (st : EngineState) (user : ℕ) :
    (∀ fd, env.fetch = Except.ok fd →
      (trainingPairs env fd).length < cfg.min_training_samples →
      (train_user_model cfg env st user).1.success = false) ∧
    (env.dbUpdate = Except.ok () →
      (train_user_model cfg env st user).1.success = false →
      (train_user_model cfg env st user).2 = st) := by
  constructor
  · intro fd hf hlt
    unfold train_user_model
    rw [hf]
    by_cases h1 : fd.length < cfg.min_training_samples
    · simp [h1]
    · simp [h1, hlt]
  · intro hdb hfail
    unfold train_user_model at hfail ⊢
    rcases h : env.fetch with e | fd <;> simp only [h] at hfail ⊢
    by_cases h1 : fd.length < cfg.min_training_samples
    · rw [if_pos h1]
    · rw [if_neg h1] at hfail ⊢
      by_cases h2 : (trainingPairs env fd).length < cfg.min_training_samples
      · rw [if_pos h2]
      · rw [if_neg h2] at hfail ⊢
        rcases h3 : env.fit (trainingPairs env fd) with e2 | fo <;> simp only [h3] at hfail ⊢
        rw [hdb] at hfail
        simp at hfail

/-- C3 witness: an empty feedback history has 0 < 5 valid samples, so
training fails, and (the post-commit database update being healthy) the
model mapping is returned unchanged. -/
theorem c3_witness_train_failure_preserves :
    (train_user_model cfgFive envNoData stEmpty 1).1.success = false ∧
    (train_user_model cfgFive envNoData stEmpty 1).2 = stEmpty := by
  have h := c3_amended_train_failure_semantics cfgFive envNoData stEmpty 1
  have hfail := h.1 [] rfl (by decide)
  exact ⟨hfail, h.2 rfl hfail⟩

/-- C5: for every user context, hybrid confidence equals the spec formula —
LLM confidence fixed at 0.8, RL confidence gated by sample count (≥20:
accuracy; ≥5: accuracy×0.7; <5: 0.3), blended 0.6×LLM + 0.4×RL at ≥5
samples and 0.9×LLM otherwise, clamped — and always lies in [0, 1]. -/
theorem c5_hybrid_confidence_formula_and_bounds (ins : Option RLInsights) :
    calculate_hybrid_confidence ins =
      hybridConfidenceSpec ((ins.getD RLInsights.empty).training_samples.getD 0)
        ((ins.getD RLInsights.empty).model_accuracy.getD (1/2)) ∧
    0 ≤ calculate_hybrid_confidence ins ∧ calculate_hybrid_confidence ins ≤ 1 := by
  refine ⟨?_, ?_, ?_⟩
  · unfold calculate_hybrid_confidence hybridConfidenceSpec
    by_cases h20 : 20 ≤ (ins.getD RLInsights.empty).training_samples.getD 0
    · have h5 : 5 ≤ (ins.getD RLInsights.empty).training_samples.getD 0 :=
        le_trans (by norm_num) h20
      simp only [h20, h5, if_true]
      rw [min_comm, max_comm]
      ring_nf
    · by_cases h5 : 5 ≤ (ins.getD RLInsights.empty).training_samples.getD 0
      · simp only [h20, h5, if_true, if_false]
        rw [min_comm, max_comm]
        ring_nf
      · simp only [h20, h5, if_false]
        rw [min_comm, max_comm]
        ring_nf
  · unfold calculate_hybrid_confidence
    exact le_min (le_max_right _ _) zero_le_one
  · unfold calculate_hybrid_confidence
    exact min_le_right _ _

/-- C6: prediction confidence is 0 when the user has no model; with a model
whose stored accuracy lies in [0, 1] (as every training run produces) it
equals exactly `0.7 * accuracy + 0.3 * min(1, training_samples / 50)`; and
it always lies in [0, 1]. -/
theorem c6_confidence_formula_and_bounds (st : EngineState) (user : ℕ) (track : Track) :
    (st.user_models user = none → get_prediction_confidence st user track = 0) ∧
    (∀ um : UserModel, st.user_models user = some um →
      0 ≤ um.performance.accuracy → um.performance.accuracy ≤ 1 →
      get_prediction_confidence st user track =
        um.performance.accuracy * (7/10) +
          (min 1 ((um.performance.training_samples : ℚ) / 50)) * (3/10)) ∧
    (0 ≤ get_prediction_confidence st user track ∧
      get_prediction_confidence st user track ≤ 1) := by
  refine ⟨?_, ?_, ?_⟩
  · intro h
    unfold get_prediction_confidence
    simp [h]
  · intro um hm h0 h1
    unfold get_prediction_confidence
    simp only [hm]
    have hs0 : (0:ℚ) ≤ min 1 ((um.performance.training_samples : ℚ) / 50) :=
      le_min zero_le_one (by positivity)
    have hs1 : min 1 ((um.performance.training_samples : ℚ) / 50) ≤ 1 := min_le_left _ _
    have hc0 : (0:ℚ) ≤ um.performance.accuracy * (7/10) +
        (min 1 ((um.performance.training_samples : ℚ) / 50)) * (3/10) := by
      have := mul_nonneg h0 (by norm_num : (0:ℚ) ≤ 7/10)
      have := mul_nonneg hs0 (by norm_num : (0:ℚ) ≤ 3/10)
      linarith
    have hc1 : um.performance.accuracy * (7/10) +
        (min 1 ((um.performance.training_samples : ℚ) / 50)) * (3/10) ≤ 1 := by
      nlinarith
    rw [min_eq_right hc1, max_eq_right hc0]
  · unfold get_prediction_confidence
    rcases hm : st.user_models user with _ | um <;> simp only [hm]
    · norm_num
    · exact ⟨le_max_left _ _, max_le zero_le_one (min_le_left _ _)⟩

/-- C6 witness: with no model the confidence is 0; with a stored model of
accuracy 1/2 trained on 25 samples it is exactly
0.7×(1/2) + 0.3×min(1, 25/50) = 1/2. -/
theorem c6_witness_confidence_values :
    get_prediction_confidence stEmpty 1 trackEmpty = 0 ∧
    get_prediction_confidence stHalf 1 trackEmpty = 1/2 := by
  constructor
  · exact (c6_confidence_formula_and_bounds stEmpty 1 trackEmpty).1 rfl
  · have h := (c6_confidence_formula_and_bounds stHalf 1 trackEmpty).2.1 umHalf rfl
      (by norm_num [umHalf]) (by norm_num [umHalf])
    rw [h]
    norm_num [umHalf, min_def]

/-- C7: the diversity penalty is exactly the capped formula
`min(2.0·artist_count·[artist_count>0] + 0.5·tag_overlap, 10.0)` over the
same-artist count and the last-10-tag-pool overlap; the formula is monotone
non-decreasing in the artist count; with 5 same-artist occurrences it equals
10 whatever the overlap; and the penalty never exceeds the 10.0 cap. -/
theorem c7_diversity_penalty_formula_monotone_capped :
    (∀ (track : Track) (recent : List Interaction),
      calculate_diversity_penalty track recent =
        penaltyFormula (artistRepeatCount track recent) (tagOverlapCount track recent)) ∧
    (∀ a b g : ℕ, a ≤ b → penaltyFormula a g ≤ penaltyFormula b g) ∧
    (∀ g : ℕ, penaltyFormula 5 g = 10) ∧
    (∀ (track : Track) (recent : List Interaction),
      calculate_diversity_penalty track recent ≤ 10) := by
  refine ⟨fun track recent => rfl, ?_, ?_, ?_⟩
  · intro a b g hab
    unfold penaltyFormula
    refine min_le_min (add_le_add ?_ le_rfl) le_rfl
    by_cases ha : 0 < a
    · have hb : 0 < b := lt_of_lt_of_le ha hab
      rw [if_pos ha, if_pos hb]
      have hq : (a:ℚ) ≤ b := by exact_mod_cast hab
      nlinarith
    · rw [if_neg ha]
      by_cases hb : 0 < b
      · rw [if_pos hb]
        positivity
      · rw [if_neg hb]
  · intro g
    unfold penaltyFormula
    rw [if_pos (by norm_num : 0 < 5)]
    have hg : (0:ℚ) ≤ (g:ℚ) * (1/2) := by positivity
    have h10 : (10:ℚ) ≤ ((5:ℕ):ℚ) * 2 + (g:ℚ) * (1/2) := by push_cast; linarith
    rw [min_eq_right h10]
  · intro track recent
    rw [show calculate_diversity_penalty track recent =
      penaltyFormula (artistRepeatCount track recent) (tagOverlapCount track recent) from rfl]
    exact min_le_right _ _

/-- C7 witness: five recent recommendations by the candidate's artist give a
penalty of exactly 10.0, and the formula is monotone from 3 to 5 repeats. -/
theorem c7_witness_five_repeats_saturate :
    calculate_diversity_penalty trackRepeat windowFive = 10 ∧
    penaltyFormula 3 0 ≤ penaltyFormula 5 0 := by
  have h := c7_diversity_penalty_formula_monotone_capped
  constructor
  · have h1 := h.1 trackRepeat windowFive
    have hc : artistRepeatCount trackRepeat windowFive = 5 := by decide
    have hg : tagOverlapCount trackRepeat windowFive = 0 := by decide
    rw [h1, hc, hg, h.2.2.1 0]
  · exact h.2.1 3 5 0 (by norm_num)

/-- The enhancement loop attaches fields to each input track in order: the
carried originals are exactly the input list. -/
theorem enhanceList_map_base (cfg : RLConfig) (env : TrainEnv) (user : ℕ)
    (context : Option Context) (recent : List Interaction) :
    ∀ (tracks : List Track) (st : EngineState),
      ((enhanceList cfg env user context recent st tracks).1).map EnhancedTrack.base = tracks := by
  intro tracks
  induction tracks with
  | nil => intro st; rfl
  | cons t ts ih =>
    intro st
    simp only [enhanceList, enhanceOne, List.map_cons, List.cons.injEq]
    exact ⟨trivial, ih _⟩

/-- Every element the enhancement loop produces carries the derived fields
computed by the source formulas. -/
theorem enhanceList_mem_fields (cfg : RLConfig) (env : TrainEnv) (user : ℕ)
    (context : Option Context) (recent : List Interaction) :
    ∀ (tracks : List Track) (st : EngineState) (e : EnhancedTrack),
      e ∈ (enhanceList cfg env user context recent st tracks).1 →
      e.rl_bonus = (e.rl_predicted_rating - 3) * 5 ∧
      e.diversity_penalty = calculate_diversity_penalty e.base recent ∧
      e.enhanced_score = e.base.ranking_score.getD 0 + e.rl_bonus - e.diversity_penalty := by
  intro tracks
  induction tracks with
  | nil => intro st e he; simp [enhanceList] at he
  | cons t ts ih =>
    intro st e he
    simp only [enhanceList, List.mem_cons] at he
    rcases he with he | he
    · subst he
      exact ⟨rfl, rfl, rfl⟩
    · exact ih _ e he

/-- The descending-score comparison is transitive. -/
theorem scoreDescLE_trans (a b c : EnhancedTrack) :
    scoreDescLE a b → scoreDescLE b c → scoreDescLE a c := by
  simp only [scoreDescLE, decide_eq_true_eq]
  exact fun h1 h2 => le_trans h2 h1

/-- The descending-score comparison is total. -/
theorem scoreDescLE_total (a b : EnhancedTrack) :
    scoreDescLE a b || scoreDescLE b a := by
  simp only [scoreDescLE, Bool.or_eq_true, decide_eq_true_eq]
  exact le_total _ _

/-- C8: `_apply_rl_enhancement` never drops or adds candidates — the carried
original tracks of the output are a permutation of the input; the output is
sorted descending by `enhanced_score`; the sort is stable (a pair in
original order with equal scores stays in that order); and each output
carries the derived rating/bonus/penalty/score fields computed from its own
untouched original track, never overwriting it. -/
theorem c8_enhance_permutes_sorts_attaches (cfg : RLConfig) (env : TrainEnv)
    (st : EngineState) (user : ℕ) (tracks : List Track) (context : Option Context)
    (recent : List Interaction) :
    (((apply_rl_enhancement cfg env st user tracks context recent).1.map
        EnhancedTrack.base).Perm tracks) ∧
    ((apply_rl_enhancement cfg env st user tracks context recent).1.Pairwise
      (fun a b => b.enhanced_score ≤ a.enhanced_score)) ∧
    (∀ a b : EnhancedTrack,
      List.Sublist [a, b] (enhanceList cfg env user context recent st tracks).1 →
      a.enhanced_score = b.enhanced_score →
      List.Sublist [a, b] (apply_rl_enhancement cfg env st user tracks context recent).1) ∧
    (∀ e ∈ (apply_rl_enhancement cfg env st user tracks context recent).1,
      e.rl_bonus = (e.rl_predicted_rating - 3) * 5 ∧
      e.diversity_penalty = calculate_diversity_penalty e.base recent ∧
      e.enhanced_score = e.base.ranking_score.getD 0 + e.rl_bonus - e.diversity_penalty) := by
  refine ⟨?_, ?_, ?_, ?_⟩
  · exact ((List.mergeSort_perm _ scoreDescLE).map EnhancedTrack.base).trans
      (List.Perm.of_eq (enhanceList_map_base cfg env user context recent tracks st))
  · exact (List.sorted_mergeSort scoreDescLE_trans scoreDescLE_total _).imp
      (fun h => by simpa [scoreDescLE, decide_eq_true_eq] using h)
  · intro a b hsub heq
    exact List.pair_sublist_mergeSort scoreDescLE_trans scoreDescLE_total
      (by simp [scoreDescLE, heq]) hsub
  · intro e he
    exact enhanceList_mem_fields cfg env user context recent tracks st e
      (List.mem_mergeSort.mp he)

/-- C8 witness: two equally-scored candidates (both predictions degrade to
the neutral 3.0, both ranking scores default to 0) keep their original
relative order in the sorted output, and the first carries the bonus
formula. -/
theorem c8_witness_stable_ties_and_bonus :
    List.Sublist [enhA, enhB] (apply_rl_enhancement cfgFive envNoData stEmpty 1 [trackA, trackB] none []).1 ∧
    enhA.rl_bonus = (enhA.rl_predicted_rating - 3) * 5 := by
  have h := c8_enhance_permutes_sorts_attaches cfgFive envNoData stEmpty 1 [trackA, trackB] none []
  have hlist : (enhanceList cfgFive envNoData 1 none [] stEmpty [trackA, trackB]).1 = [enhA, enhB] := rfl
  constructor
  · exact h.2.2.1 enhA enhB (by rw [hlist]) rfl
  · exact (h.2.2.2 enhA
      (List.mem_mergeSort.mpr (by rw [hlist]; exact List.mem_cons_self _ _))).1

/-- C9 counterexample: a user with a cached context snapshot and a
post-feedback count still below `min_training_samples` (2 < 5): the feedback
is accepted, but the subsequent context retrieval within the TTL (100 s old,
TTL 300 s) returns the pre-feedback snapshot — the cache entry was not
invalidated, refuting invalidation on every feedback submission. -/
theorem c9_counterexample_cache_survives_feedback :
    (process_feedback cfgFive envNoData stCachedOne 1 2).1.success = true ∧
    (get_enhanced_user_context (process_feedback cfgFive envNoData stCachedOne 1 2).2
      1 100 ctxFresh).1 = ctxCached ∧
    ctxCached ≠ ctxFresh :=
  ⟨rfl, rfl, by decide⟩

/-- C9 (amended): `process_feedback` deletes the user's cache entry exactly
when the feedback count has reached `min_training_samples` (the retraining
branch) — a subsequent retrieval then rebuilds even within the TTL; below
the threshold the whole hybrid state, cached pre-feedback snapshot
included, is returned unchanged. -/
theorem c9_amended_invalidate_only_on_retrain (cfg : RLConfig) (env : TrainEnv)
    (st : HybridState) (user : ℕ) (feedback_count now : ℕ) (build : UserContext) :
    (cfg.min_training_samples ≤ feedback_count →
      (process_feedback cfg env st user feedback_count).2.user_contexts user = none ∧
      (get_enhanced_user_context (process_feedback cfg env st user feedback_count).2
        user now build).1 = build) ∧
    (feedback_count < cfg.min_training_samples →
      (process_feedback cfg env st user feedback_count).2 = st) := by
  constructor
  · intro hge
    have hupd : (process_feedback cfg env st user feedback_count).2.user_contexts user = none := by
      unfold process_feedback
      rw [if_pos hge]
      exact Function.update_same user none st.user_contexts
    refine ⟨hupd, ?_⟩
    unfold get_enhanced_user_context
    simp only [hupd]
  · intro hlt
    unfold process_feedback
    rw [if_neg (not_le.mpr hlt)]

/-- C9 witness: at the threshold (7 ≥ 5) the entry is removed and the
retrieval 100 s later rebuilds rather than serving the stale snapshot. -/
theorem c9_witness_invalidate_on_retrain :
    (process_feedback cfgFive envNoData stCachedOne 1 7).2.user_contexts 1 = none ∧
    (get_enhanced_user_context (process_feedback cfgFive envNoData stCachedOne 1 7).2
      1 100 ctxFresh).1 = ctxFresh :=
  (c9_amended_invalidate_only_on_retrain cfgFive envNoData stCachedOne 1 7 100 ctxFresh).1
    (by decide)

/-- Every committed model stores an accuracy that is nonnegative, and at
most 1 whenever the fitted MAE is nonnegative (a mean absolute error always
is); this backs the accuracy-range hypothesis of the confidence claim. -/
theorem fittedUserModel_accuracy_bounds (fo : FitOutcome) :
    0 ≤ (fittedUserModel fo).performance.accuracy ∧
    (0 ≤ fo.mae → (fittedUserModel fo).performance.accuracy ≤ 1) := by
  constructor
  · exact le_max_left _ _
  · intro h
    apply max_le zero_le_one
    have h4 : 0 ≤ fo.mae / 4 := by positivity
    linarith

/-- A failed training run returns no `accuracy` key. -/
theorem train_failure_accuracy_none (cfg : RLConfig) (env : TrainEnv)
    (st : EngineState) (user : ℕ) :
    (train_user_model cfg env st user).1.success = false →
    (train_user_model cfg env st user).1.accuracy = none := by
  intro hfail
  unfold train_user_model at hfail ⊢
  rcases h : env.fetch with e | fd <;> simp only [h] at hfail ⊢
  by_cases h1 : fd.length < cfg.min_training_samples
  · rw [if_pos h1]
  · rw [if_neg h1] at hfail ⊢
    by_cases h2 : (trainingPairs env fd).length < cfg.min_training_samples
    · rw [if_pos h2]
    · rw [if_neg h2] at hfail ⊢
      rcases h3 : env.fit (trainingPairs env fd) with e2 | fo <;> simp only [h3] at hfail ⊢
      rcases h4 : env.dbUpdate with e3 | u <;> simp only [h4] at hfail ⊢
      simp at hfail

/-- C10: whatever the external outcomes, `process_feedback` returns
`success = true`; when the feedback count meets the threshold and the
triggered retraining fails, the failure is visible only as
`model_updated = false` with `new_accuracy` defaulting to 0 — never as
`success = false`. -/
theorem c10_feedback_success_masks_training_failure (cfg : RLConfig) (env : TrainEnv)
    (st : HybridState) (user : ℕ) (feedback_count : ℕ) :
    (process_feedback cfg env st user feedback_count).1.success = true ∧
    (cfg.min_training_samples ≤ feedback_count →
      (train_user_model cfg env st.engine user).1.success = false →
      (process_feedback cfg env st user feedback_count).1.model_updated = false ∧
      (process_feedback cfg env st user feedback_count).1.new_accuracy = some 0) := by
  constructor
  · unfold process_feedback
    by_cases hge : cfg.min_training_samples ≤ feedback_count
    · rw [if_pos hge]
    · rw [if_neg hge]
  · intro hge hfail
    unfold process_feedback
    rw [if_pos hge]
    have hacc := train_failure_accuracy_none cfg env st.engine user hfail
    exact ⟨hfail, by simp [hacc]⟩

/-- C10 witness: at the threshold with an empty feedback history the
retraining fails, yet the returned structure has `success = true`,
`model_updated = false`, and `new_accuracy = 0`. -/
theorem c10_witness_success_with_failed_retrain :
    (process_feedback cfgFive envNoData stCachedOne 1 5).1.success = true ∧
    (process_feedback cfgFive envNoData stCachedOne 1 5).1.model_updated = false ∧
    (process_feedback cfgFive envNoData stCachedOne 1 5).1.new_accuracy = some 0 := by
  have h := c10_feedback_success_masks_training_failure cfgFive envNoData stCachedOne 1 5
  have h2 := h.2 (by decide) rfl
  exact ⟨h.1, h2.1, h2.2⟩

end HybridMusic
